import Mathlib

/-!
Verification development for the Slack QA bot webhook relay
(`services/slack-bot`, handler in `route.ts`).

The TypeScript handler is shallowly embedded below.  JavaScript values that
flow through the handler are modelled by the `Json` inductive; JavaScript
coercions (`String(x ?? "")`, truthiness, `Number(...)`) are modelled by
explicit total functions.  Network effects (Slack and GitHub API round trips)
are modelled by a `World` oracle mapping each outbound request to an HTTP
status and a JSON response; every operation returns the list of calls it made
together with an `Except String` result mirroring thrown `Error` values.

Cryptographic and platform primitives that the code merely invokes
(HMAC-SHA256, JavaScript `Number(...)` parsing of the timestamp header, and
`JSON.parse`) are abstracted as function parameters / pre-parsed arguments;
everything else is translated from the source.
-/

/-- JSON values as handled by the route.  Numbers are modelled as integers
(all numbers in this traffic are integral; float rounding is not modelled). -/
inductive Json where
  | null
  | bool (b : Bool)
  | num (n : Int)
  | str (s : String)
  | arr (elems : List Json)
  | obj (fields : List (String × Json))

/-- Property access `j.k`: `none` models JavaScript `undefined`.
Object keys are assumed distinct (first match wins). -/
def jget (j : Json) (k : String) : Option Json :=
  match j with
  | .obj fields => fields.lookup k
  | _ => none

/-- JavaScript truthiness of a possibly-undefined value. -/
def truthy (o : Option Json) : Bool :=
  match o with
  | none => false
  | some .null => false
  | some (.bool b) => b
  | some (.num n) => n ≠ 0
  | some (.str s) => s ≠ ""
  | some (.arr _) => true
  | some (.obj _) => true

mutual

/-- JavaScript `String(v)` coercion. -/
def jsToString : Json → String
  | .null => "null"
  | .bool b => cond b "true" "false"
  | .num n => toString n
  | .str s => s
  | .arr xs => String.intercalate "," (jsArrParts xs)
  | .obj _ => "[object Object]"

/-- Elements of `Array.prototype.join`: `null` renders as the empty string. -/
def jsArrParts : List Json → List String
  | [] => []
  | .null :: xs => "" :: jsArrParts xs
  | x :: xs => jsToString x :: jsArrParts xs

end

/-- The ubiquitous `String(x ?? "")` pattern: `undefined`/`null` become `""`. -/
def jsStringOrEmpty (o : Option Json) : String :=
  match o with
  | none => ""
  | some .null => ""
  | some j => jsToString j

/-- The `x ?? {}` pattern (`event.item ?? {}`). -/
def jsObjOrEmpty (o : Option Json) : Json :=
  match o with
  | none => .obj []
  | some .null => .obj []
  | some j => j

/-- Whitespace as matched by the regex class `\s` (restricted to the four
ASCII whitespace characters; exotic Unicode spaces are not modelled). -/
def wsChar (c : Char) : Bool :=
  c = ' ' ∨ c = '\t' ∨ c = '\n' ∨ c = '\r'

/-- Line terminators: characters not matched by `.` and before which `$`
matches in multiline mode. -/
def termChar (c : Char) : Bool :=
  c = '\n' ∨ c = '\r'

/-- JavaScript `String.prototype.trim` (ASCII whitespace; implemented
structurally over the character list). -/
def jsTrim (s : String) : String :=
  String.mk (((s.toList.dropWhile wsChar).reverse.dropWhile wsChar).reverse)

/-- JavaScript `String.prototype.slice(n)` for an ASCII prefix length
(implemented structurally over the character list). -/
def strDrop (s : String) (n : Nat) : String :=
  String.mk (s.toList.drop n)

/-- JavaScript `Number(string)` restricted to optionally signed decimal
integers (`none` models `NaN`; float, hex and exponent forms are not
modelled — no claim exercises them). -/
def jsStrToNumber (s : String) : Option Int :=
  let t := jsTrim s
  if t = "" then some 0
  else
    let (sign, ds) :=
      match t.toList with
      | '-' :: rest => ((-1 : Int), rest)
      | '+' :: rest => ((1 : Int), rest)
      | l => ((1 : Int), l)
    if ds ≠ [] ∧ ds.all Char.isDigit then
      some (sign * (ds.foldl (fun acc c => acc * 10 + (c.toNat - '0'.toNat)) 0 : Nat))
    else none

/-- JavaScript `Number(v ?? 0)` on a possibly-undefined JSON value
(`none` in the result models `NaN`). -/
def jsNumberOrZero (o : Option Json) : Option Int :=
  match o with
  | none => some 0
  | some .null => some 0
  | some (.num n) => some n
  | some (.bool b) => some (cond b 1 0)
  | some (.str s) => jsStrToNumber s
  | some j => jsStrToNumber (jsToString j)

/-- String escaping used by `JSON.stringify`. -/
def jsonEscape : List Char → String
  | [] => ""
  | c :: cs =>
    (if c = '"' then "\\\""
     else if c = '\\' then "\\\\"
     else if c = '\n' then "\\n"
     else if c = '\r' then "\\r"
     else if c = '\t' then "\\t"
     else String.singleton c) ++ jsonEscape cs

mutual

/-- `JSON.stringify` (control characters other than tab, LF, CR render via
their `\u00XX` form only for those three; others are untouched — no claim
exercises them). -/
def jsonStringify : Json → String
  | .null => "null"
  | .bool b => cond b "true" "false"
  | .num n => toString n
  | .str s => "\"" ++ jsonEscape s.toList ++ "\""
  | .arr xs => "[" ++ String.intercalate "," (jsonStringifyList xs) ++ "]"
  | .obj fs => "\x7b" ++ String.intercalate "," (jsonStringifyFields fs) ++ "\x7d"

def jsonStringifyList : List Json → List String
  | [] => []
  | x :: xs => jsonStringify x :: jsonStringifyList xs

def jsonStringifyFields : List (String × Json) → List String
  | [] => []
  | (k, v) :: fs => ("\"" ++ jsonEscape k.toList ++ "\":" ++ jsonStringify v) :: jsonStringifyFields fs

end

/-- Case-insensitive prefix test (regex `i` flag on literal pattern parts). -/
def startsCI : List Char → List Char → Bool
  | [], _ => true
  | _ :: _, [] => false
  | p :: ps, c :: cs => p.toLower = c.toLower && startsCI ps cs

/-- Case-insensitive substring occurrence. -/
def occursCI (pat : List Char) : List Char → Bool
  | [] => startsCI pat []
  | c :: cs => startsCI pat (c :: cs) || occursCI pat cs

/-- Case-sensitive prefix test. -/
def startsCS : List Char → List Char → Bool
  | [], _ => true
  | _ :: _, [] => false
  | p :: ps, c :: cs => p = c && startsCS ps cs

/-- JavaScript `String.prototype.includes` (substring containment). -/
def strIncludes (s pat : String) : Bool :=
  go pat.toList s.toList
where
  go (pat : List Char) : List Char → Bool
    | [] => startsCS pat []
    | c :: cs => startsCS pat (c :: cs) || go pat cs

/-- The part of a line matched by `.+` starting here: everything up to the
next line terminator. -/
def takeUntilTerm : List Char → List Char
  | [] => []
  | c :: cs => if termChar c then [] else c :: takeUntilTerm cs

/-- Backtracking search for `\s*(.+)$` after the label: try consuming `k`
whitespace characters (greedy, so from the longest run downwards) and let
`(.+)` capture the rest of that line. -/
def tryBack (r : List Char) : Nat → Option (List Char)
  | 0 =>
    match r with
    | [] => none
    | c :: cs => if termChar c then none else some (takeUntilTerm (c :: cs))
  | k + 1 =>
    match r.drop (k + 1) with
    | [] => tryBack r k
    | c :: cs => if termChar c then tryBack r k else some (takeUntilTerm (c :: cs))

/-- Match `\s*(.+)$` against `r`, returning the captured group.  Note that
`\s` also matches newlines, so the capture may come from a later line when
the label is followed directly by a line break. -/
def tailMatch (r : List Char) : Option (List Char) :=
  tryBack r (r.takeWhile wsChar).length

/-- First match of the (implicitly unanchored) pattern `<label>:\s*(.+)$`
with flags `im`, scanning left to right; a position where the label matches
but no capture is possible is skipped, as the regex engine does. -/
def findLabelValue (pat : List Char) (s : List Char) : Option (List Char) :=
  match s with
  | [] => none
  | _ :: rest =>
    match (if startsCI pat s then tailMatch (s.drop pat.length) else none) with
    | some cap => some cap
    | none => findLabelValue pat rest

/-- The literal pattern scanned for a labeled field: the label followed by
a colon. -/
def labelPat (label : String) : List Char :=
  label.toList ++ [':']

/-- The `valueOf` helper of `extractQaContext`: first regex match of
`<label>:\s*(.+)$` (`im` flags) in `text`, trimmed.  The `RegExp` escaping of
the label in the source makes the label literal, which is what the direct
scan implements. -/
def valueOf (label : String) (text : String) : Option String :=
  (findLabelValue (labelPat label) text.toList).map
    (fun cs => jsTrim (String.mk cs))

/-- Digit run to number (`Number` of a digit string; overflow to `Infinity`
beyond ~1.8e308 is not modelled — such PR numbers do not occur). -/
def digitsToNat (ds : List Char) : Nat :=
  ds.foldl (fun acc c => acc * 10 + (c.toNat - '0'.toNat)) 0

/-- First match of `/PR #(\d+)/i`, returning the captured digit run. -/
def findPrNumber (s : List Char) : Option (List Char) :=
  match s with
  | [] => none
  | _ :: rest =>
    if startsCI ("PR #".toList) s then
      let ds := (s.drop 4).takeWhile Char.isDigit
      if ds.isEmpty then findPrNumber rest else some ds
    else findPrNumber rest

/-- Literal head of the pull-request URL pattern. -/
def urlHead : List Char := "https://github.com/".toList

/-- Attempt to match `/https:\/\/github\.com\/([^\/]+)\/([^\/]+)\/pull\/(\d+)/i`
at the start of `s`; returns (whole match, owner, repo).  The `[^/]+` groups
are necessarily maximal runs here, so no further backtracking arises. -/
def tryPrUrlAt (s : List Char) : Option (List Char × List Char × List Char) :=
  if startsCI urlHead s then
    let r1 := s.drop urlHead.length
    let ow := r1.takeWhile (fun c => c ≠ '/')
    if ow.isEmpty then none
    else
      let r2 := r1.drop ow.length
      if r2.isEmpty then none
      else
        let r3 := r2.drop 1
        let rp := r3.takeWhile (fun c => c ≠ '/')
        if rp.isEmpty then none
        else if startsCI ("/pull/".toList) (r3.drop rp.length) then
          let ds := (r3.drop (rp.length + 6)).takeWhile Char.isDigit
          if ds.isEmpty then none
          else some (s.take (urlHead.length + ow.length + 1 + rp.length + 6 + ds.length), ow, rp)
        else none
  else none

/-- First match of the pull-request URL pattern, scanning left to right. -/
def findPrUrl (s : List Char) : Option (List Char × List Char × List Char) :=
  match s with
  | [] => none
  | _ :: rest =>
    match tryPrUrlAt s with
    | some x => some x
    | none => findPrUrl rest

/-- The `QaContext` type of the source. -/
structure QaContext where
  app : String
  prNumber : Nat
  prUrl : Option String := none
  owner : String
  repo : String
  commit : Option String := none
  channel : Option String := none
  iosBuildId : Option String := none
  androidBuildId : Option String := none
  iosUpdateGroupId : Option String := none
  androidUpdateGroupId : Option String := none
  runtimeIos : Option String := none
  runtimeAndroid : Option String := none
deriving DecidableEq, Repr

/-- `extractQaContext`, with the module-level `DEFAULT_GITHUB_REPOSITORY`
passed explicitly.  The `Number.isFinite(prNumber)` guard of the source is
always true for a captured digit run in this model (see `digitsToNat`). -/
def extractQaContext (defaultRepo : String) (text : String) : Option QaContext :=
  let s := text.toList
  match findPrNumber s with
  | none => none
  | some ds =>
    let ownerRepo : Option (String × String × Option String) :=
      match findPrUrl s with
      | some (full, ow, rp) => some (String.mk ow, String.mk rp, some (String.mk full))
      | none =>
        if strIncludes defaultRepo "/" then
          let dl := defaultRepo.toList
          let ow := dl.takeWhile (fun c => c ≠ '/')
          let rp := (dl.drop (ow.length + 1)).takeWhile (fun c => c ≠ '/')
          some (String.mk ow, String.mk rp, none)
        else none
    match ownerRepo with
    | none => none
    | some (owner, repo, prUrl) =>
      some {
        app := (valueOf "App" text).getD "unknown"
        prNumber := digitsToNat ds
        prUrl := prUrl
        owner := owner
        repo := repo
        commit := valueOf "Commit" text
        channel := valueOf "Channel" text
        iosBuildId := valueOf "iOS Build ID" text
        androidBuildId := valueOf "Android Build ID" text
        iosUpdateGroupId := valueOf "iOS Update Group ID" text
        androidUpdateGroupId := valueOf "Android Update Group ID" text
        runtimeIos := valueOf "Runtime iOS" text
        runtimeAndroid := valueOf "Runtime Android" text
      }

/-- One outbound network call, as observable effect. -/
inductive Call where
  | slack (method : String) (body : Json)
  | github (method : String) (path : String) (body : Option Json)

/-- `Response.ok` of `fetch`: HTTP status in the 2xx range. -/
def is2xx (status : Nat) : Bool :=
  200 ≤ status && status < 300

/-- External-world oracle: HTTP status and JSON body returned for each
outbound request.  Responses are assumed to be well-formed JSON (a JSON
parse failure of a response body is not modelled). -/
structure World where
  slack : String → Json → Nat × Json
  github : String → String → Option Json → Nat × Json

/-- An effectful computation: the calls it makes and its result, where
`Except.error` models a thrown `Error` (carrying `error.message`). -/
abbrev Effect (α : Type) := List Call × Except String α

/-- Sequencing of effectful computations (`await` chaining): calls
accumulate; a thrown error short-circuits. -/
def andThen (x : Effect α) (f : α → Effect β) : Effect β :=
  match x.2 with
  | .error e => (x.1, .error e)
  | .ok a => (x.1 ++ (f a).1, (f a).2)

/-- The `String(data.error ?? "unknown")` coercion of `slackApi`. -/
def jsStringOrUnknown (o : Option Json) : String :=
  match o with
  | none => "unknown"
  | some .null => "unknown"
  | some j => jsToString j

/-- `slackApi`: POST to a Slack Web API method; non-2xx or a non-`ok`
application response throws. -/
def slackApi (method : String) (body : Json) (w : World) : Effect Json :=
  ([Call.slack method body],
   let status := (w.slack method body).1
   let data := (w.slack method body).2
   if is2xx status = false then
     .error ("Slack API " ++ method ++ " failed (" ++ toString status ++ ")")
   else if truthy (jget data "ok") = false then
     .error ("Slack API " ++ method ++ " error: " ++ jsStringOrUnknown (jget data "error"))
   else
     .ok data)

/-- The error message thrown by `githubApi` on a non-2xx response. -/
def ghErrMsg (path : String) (status : Nat) (data : Json) : String :=
  "GitHub API " ++ path ++ " failed (" ++ toString status ++ "): " ++ jsonStringify data

/-- `githubApi`: request against the GitHub REST API; 204 yields `{}`,
other 2xx yield the response body, anything else throws. -/
def githubApi (path : String) (method : String) (body : Option Json) (w : World) : Effect Json :=
  ([Call.github method path body],
   let status := (w.github method path body).1
   let data := (w.github method path body).2
   if status = 204 then .ok (Json.obj [])
   else if is2xx status then .ok data
   else .error (ghErrMsg path status data))

/-- Request body of the `conversations.replies` lookup. -/
def repliesBody (channel ts : String) : Json :=
  Json.obj [("channel", .str channel), ("ts", .str ts), ("limit", .num 1), ("inclusive", .bool true)]

/-- `fetchSlackParentMessage`: first message of `conversations.replies`
(`null` when the list is empty).  `messages` values that are neither absent
nor an array are not modelled (the Slack API returns an array). -/
def fetchSlackParentMessage (channel ts : String) (w : World) : Effect (Option String) :=
  andThen (slackApi "conversations.replies" (repliesBody channel ts) w)
    (fun response =>
      let messages : List Json :=
        match jget response "messages" with
        | some (.arr xs) => xs
        | _ => []
      match messages with
      | [] => ([], .ok none)
      | parent :: _ => ([], .ok (some (jsStringOrEmpty (jget parent "text")))))

/-- Request body of `chat.postMessage`. -/
def postBody (channel threadTs text : String) : Json :=
  Json.obj [("channel", .str channel), ("thread_ts", .str threadTs), ("text", .str text)]

/-- `postSlackThreadMessage`. -/
def postSlackThreadMessage (channel threadTs text : String) (w : World) : Effect Unit :=
  andThen (slackApi "chat.postMessage" (postBody channel threadTs text) w)
    (fun _ => ([], .ok ()))

/-- Request body of `users.info`. -/
def usersInfoBody (userId : String) : Json :=
  Json.obj [("user", .str userId)]

/-- `resolveSlackUser`: display name via `users.info`, falling back to the
raw user id on any failure; the empty id short-circuits to `"unknown"`. -/
def resolveSlackUser (userId : String) (w : World) : Effect String :=
  if userId = "" then ([], .ok "unknown")
  else
    let r := slackApi "users.info" (usersInfoBody userId) w
    match r.2 with
    | .error _ => (r.1, .ok userId)
    | .ok response =>
      let user := jsObjOrEmpty (jget response "user")
      let displayName : Option Json :=
        match jget user "profile" with
        | none => none
        | some .null => none
        | some p => jget p "display_name"
      let name :=
        if truthy displayName then displayName
        else if truthy (jget user "name") then jget user "name"
        else some (.str userId)
      (r.1, .ok (jsToString (name.getD .null)))

/-- Path of the label collection of a PR. -/
def labelsPath (qa : QaContext) : String :=
  "/repos/" ++ qa.owner ++ "/" ++ qa.repo ++ "/issues/" ++ toString qa.prNumber ++ "/labels"

/-- `addGithubLabels`. -/
def addGithubLabels (qa : QaContext) (labels : List String) (w : World) : Effect Unit :=
  andThen (githubApi (labelsPath qa) "POST" (some (Json.obj [("labels", .arr (labels.map Json.str))])) w)
    (fun _ => ([], .ok ()))

/-- Characters left unescaped by `encodeURIComponent`. -/
def uriUnreserved (c : Char) : Bool :=
  ('A' ≤ c && c ≤ 'Z') || ('a' ≤ c && c ≤ 'z') || ('0' ≤ c && c ≤ '9') ||
  c = '-' || c = '_' || c = '.' || c = '!' || c = '~' || c = '*' ||
  c = Char.ofNat 39 || c = '(' || c = ')'

/-- Uppercase hexadecimal digit. -/
def hexDigitUpper (n : Nat) : Char :=
  if n < 10 then Char.ofNat ('0'.toNat + n) else Char.ofNat ('A'.toNat + n - 10)

/-- UTF-8 bytes of a character. -/
def utf8Bytes (c : Char) : List Nat :=
  let n := c.toNat
  if n < 0x80 then [n]
  else if n < 0x800 then [0xC0 + n / 64, 0x80 + n % 64]
  else if n < 0x10000 then [0xE0 + n / 4096, 0x80 + (n / 64) % 64, 0x80 + n % 64]
  else [0xF0 + n / 262144, 0x80 + (n / 4096) % 64, 0x80 + (n / 64) % 64, 0x80 + n % 64]

/-- `encodeURIComponent`: percent-encode every UTF-8 byte of each reserved
character, uppercase hex. -/
def encodeURIComponent (s : String) : String :=
  String.join (s.toList.map (fun c =>
    if uriUnreserved c then String.singleton c
    else String.join ((utf8Bytes c).map (fun b => String.mk ['%', hexDigitUpper (b / 16), hexDigitUpper (b % 16)]))))

/-- Path used by `removeGithubLabel`. -/
def labelDeletePath (qa : QaContext) (name : String) : String :=
  labelsPath qa ++ "/" ++ encodeURIComponent name

/-- `removeGithubLabel`: DELETE the label; a thrown error whose message
contains the substring `"404"` is swallowed (treated as label-not-found),
anything else is rethrown. -/
def removeGithubLabel (qa : QaContext) (name : String) (w : World) : Effect Unit :=
  let g := githubApi (labelDeletePath qa name) "DELETE" none w
  match g.2 with
  | .ok _ => (g.1, .ok ())
  | .error msg =>
    if strIncludes msg "404" then (g.1, .ok ()) else (g.1, .error msg)

/-- Path of the PR comment collection. -/
def commentsPath (qa : QaContext) : String :=
  "/repos/" ++ qa.owner ++ "/" ++ qa.repo ++ "/issues/" ++ toString qa.prNumber ++ "/comments"

/-- `createPrComment`. -/
def createPrComment (qa : QaContext) (body : String) (w : World) : Effect Unit :=
  andThen (githubApi (commentsPath qa) "POST" (some (Json.obj [("body", .str body)])) w)
    (fun _ => ([], .ok ()))

/-- The `string | null` entries of the issue-body array: a JavaScript
conditional `x ? "Label: " + x : null` on an optional field (an empty
string is falsy, so a present-but-empty field also yields `null`). -/
def jsOptLine (lbl : String) (o : Option String) : Option String :=
  match o with
  | none => none
  | some v => if v = "" then none else some (lbl ++ v)

/-- `array.filter(Boolean)` over `(string | null)[]`: drops `null` entries
and empty strings. -/
def jsFilterBoolean : List (Option String) → List String
  | [] => []
  | none :: rest => jsFilterBoolean rest
  | some v :: rest => if v = "" then jsFilterBoolean rest else v :: jsFilterBoolean rest

/-- The issue body built inline by `createBugIssue`:
`[...].filter(Boolean).join("\n")`. -/
def issueBody (qa : QaContext) (actor : String) (bugDescription : String) : String :=
  String.intercalate "\n" (jsFilterBoolean
    [ some ("Segnalato da: @" ++ actor),
      some ("PR: #" ++ toString qa.prNumber),
      jsOptLine "PR URL: " qa.prUrl,
      jsOptLine "Commit: " qa.commit,
      jsOptLine "Channel: " qa.channel,
      jsOptLine "iOS Build ID: " qa.iosBuildId,
      jsOptLine "Android Build ID: " qa.androidBuildId,
      jsOptLine "iOS Update Group ID: " qa.iosUpdateGroupId,
      jsOptLine "Android Update Group ID: " qa.androidUpdateGroupId,
      jsOptLine "Runtime iOS: " qa.runtimeIos,
      jsOptLine "Runtime Android: " qa.runtimeAndroid,
      some "",
      some "Descrizione:",
      some bugDescription ])

/-- Issue title built by `createBugIssue`. -/
def issueTitle (qa : QaContext) : String :=
  "🐛 QA bug - PR #" ++ toString qa.prNumber ++ " (" ++ qa.app ++ ")"

/-- Path of the issue collection. -/
def issuesPath (qa : QaContext) : String :=
  "/repos/" ++ qa.owner ++ "/" ++ qa.repo ++ "/issues"

/-- Request payload of the issue-creation POST. -/
def issuePayload (qa : QaContext) (actor bugDescription : String) : Json :=
  Json.obj [("title", .str (issueTitle qa)),
            ("body", .str (issueBody qa actor bugDescription)),
            ("labels", .arr [.str "bug", .str "qa"])]

/-- Body of the cross-linking PR comment posted after issue creation. -/
def bugCommentBody (issueUrl bugDescription : String) : String :=
  "## QA bug creato da Slack\n\nIssue: " ++ issueUrl ++ "\n\n" ++ bugDescription

/-- `createBugIssue`: create the issue, then (when the response carries a
positive issue number) cross-link it in a PR comment; returns the issue
URL. -/
def createBugIssue (qa : QaContext) (actor bugDescription : String) (w : World) : Effect String :=
  andThen (githubApi (issuesPath qa) "POST" (some (issuePayload qa actor bugDescription)) w)
    (fun issue =>
      let issueNumber := jsNumberOrZero (jget issue "number")
      let issueUrl := jsStringOrEmpty (jget issue "html_url")
      if (match issueNumber with | some n => decide (0 < n) | none => false) = true then
        andThen (createPrComment qa (bugCommentBody issueUrl bugDescription) w)
          (fun _ => ([], .ok issueUrl))
      else ([], .ok issueUrl))

/-- Reactions treated as approval. -/
def approveReactions : List String :=
  ["white_check_mark", "heavy_check_mark", "check_mark"]

/-- `handleReactionAdded`, with the module-level default repository passed
explicitly (used by `extractQaContext`). -/
def handleReactionAdded (defaultRepo : String) (event : Json) (w : World) : Effect Unit :=
  let reaction := jsStringOrEmpty (jget event "reaction")
  let item := jsObjOrEmpty (jget event "item")
  let channel := jsStringOrEmpty (jget item "channel")
  let ts := jsStringOrEmpty (jget item "ts")
  let slackUserId := jsStringOrEmpty (jget event "user")
  if channel = "" ∨ ts = "" ∨ reaction = "" then ([], .ok ())
  else
    andThen (fetchSlackParentMessage channel ts w) (fun parent =>
      match parent with
      | none => ([], .ok ())
      | some ptext =>
        if ptext = "" then ([], .ok ())
        else
          match extractQaContext defaultRepo ptext with
          | none => ([], .ok ())
          | some qa =>
            andThen (resolveSlackUser slackUserId w) (fun actor =>
              if reaction ∈ approveReactions then
                andThen (removeGithubLabel qa "qa:needed" w) (fun _ =>
                andThen (removeGithubLabel qa "qa:changes-requested" w) (fun _ =>
                andThen (addGithubLabels qa ["qa:approved"] w) (fun _ =>
                postSlackThreadMessage channel ts
                  ("✅ QA approvato da @" ++ actor ++ ". Label `qa:approved` applicata su PR #"
                    ++ toString qa.prNumber ++ ".") w)))
              else if reaction = "x" then
                andThen (removeGithubLabel qa "qa:approved" w) (fun _ =>
                andThen (removeGithubLabel qa "qa:needed" w) (fun _ =>
                andThen (addGithubLabels qa ["qa:changes-requested"] w) (fun _ =>
                postSlackThreadMessage channel ts
                  (String.intercalate "\n"
                    [ "❌ QA changes requested da @" ++ actor ++ ".",
                      "Rispondi in questo thread con: `qa-feedback: <dettagli>`",
                      "Il bot copierà automaticamente il feedback nel PR." ]) w)))
              else if reaction = "bug" then
                postSlackThreadMessage channel ts
                  (String.intercalate "\n"
                    [ "🐛 Bug segnalato da @" ++ actor ++ ".",
                      "Rispondi in questo thread con: `qa-bug: <descrizione bug>`",
                      "Il bot creerà automaticamente una GitHub Issue con metadati artefatto." ]) w
              else ([], .ok ())))

/-- Body of the PR comment created for `qa-feedback:` replies. -/
def feedbackCommentBody (actor feedback : String) : String :=
  String.intercalate "\n"
    [ "## QA feedback from Slack", "", "Segnalato da: @" ++ actor, "", feedback ]

/-- `handleChannelThreadMessage`, with the default repository passed
explicitly.  `text.toLowerCase().startsWith(p)` for the ASCII prefixes used
here is modelled by the case-insensitive prefix test, and `text.slice(n)` by
dropping `n` characters (the matched prefix is ASCII, so UTF-16 units and
characters agree on the dropped range). -/
def handleChannelThreadMessage (defaultRepo : String) (event : Json) (w : World) : Effect Unit :=
  let subtype := jsStringOrEmpty (jget event "subtype")
  if subtype ≠ "" then ([], .ok ())
  else
    let threadTs := jsStringOrEmpty (jget event "thread_ts")
    let channel := jsStringOrEmpty (jget event "channel")
    let text := jsTrim (jsStringOrEmpty (jget event "text"))
    let slackUserId := jsStringOrEmpty (jget event "user")
    if threadTs = "" ∨ channel = "" ∨ text = "" ∨ slackUserId = "" then ([], .ok ())
    else
      andThen (fetchSlackParentMessage channel threadTs w) (fun parent =>
        match parent with
        | none => ([], .ok ())
        | some ptext =>
          if ptext = "" then ([], .ok ())
          else
            match extractQaContext defaultRepo ptext with
            | none => ([], .ok ())
            | some qa =>
              andThen (resolveSlackUser slackUserId w) (fun actor =>
                if startsCI ("qa-feedback:".toList) text.toList then
                  let feedback := jsTrim (strDrop text "qa-feedback:".length)
                  if feedback = "" then ([], .ok ())
                  else
                    andThen (removeGithubLabel qa "qa:approved" w) (fun _ =>
                    andThen (removeGithubLabel qa "qa:needed" w) (fun _ =>
                    andThen (addGithubLabels qa ["qa:changes-requested"] w) (fun _ =>
                    andThen (createPrComment qa (feedbackCommentBody actor feedback) w) (fun _ =>
                    postSlackThreadMessage channel threadTs
                      "📝 Feedback copiato nel PR e label `qa:changes-requested` applicata." w))))
                else if startsCI ("qa-bug:".toList) text.toList then
                  let bug := jsTrim (strDrop text "qa-bug:".length)
                  if bug = "" then ([], .ok ())
                  else
                    andThen (createBugIssue qa actor bug w) (fun issueUrl =>
                    postSlackThreadMessage channel threadTs ("🐛 Issue creata: " ++ issueUrl) w)
                else ([], .ok ())))

/-- The signature the verifier computes and compares against
(`"v0=" + hex-HMAC-SHA256(secret, "v0:" + timestamp + ":" + rawBody)`). -/
def expectedSig (hmacHex : String → String → String)
    (signingSecret timestamp rawBody : String) : String :=
  "v0=" ++ hmacHex signingSecret ("v0:" ++ timestamp ++ ":" ++ rawBody)

/-- `verifySlackSignature`.  The two platform primitives it invokes are
passed as parameters: `hmacHex secret base` is the hex HMAC-SHA256 digest,
and `numParse` is JavaScript `Number(...)` on the timestamp header, where
`none` models a non-finite result; `now` is `Math.floor(Date.now() / 1000)`.
The `Buffer` length comparison and `crypto.timingSafeEqual` amount to
equality of UTF-8 byte sequences, i.e. string equality. -/
def verifySlackSignature (hmacHex : String → String → String)
    (numParse : String → Option Int) (now : Int)
    (rawBody signature timestamp signingSecret : String) : Bool :=
  if signature = "" ∨ timestamp = "" then false
  else
    match numParse timestamp with
    | none => false
    | some ts =>
      if 60 * 5 < (now - ts).natAbs then false
      else if (expectedSig hmacHex signingSecret timestamp rawBody).utf8ByteSize
          ≠ signature.utf8ByteSize then false
      else expectedSig hmacHex signingSecret timestamp rawBody = signature

/-- Immutable configuration (module-level environment reads). -/
structure Config where
  slackBotToken : String
  slackSigningSecret : String
  githubToken : String
  defaultRepo : String

/-- Outcome of the synchronous part of the route handler. -/
structure HttpResponse where
  status : Nat
  contentType : Option String
  body : String
deriving DecidableEq, Repr

/-- Equality test against a string literal, modelling `x === "lit"` on a
JSON value. -/
def jIsStr (o : Option Json) (v : String) : Bool :=
  match o with
  | some (.str s) => s = v
  | _ => false

/-- The fire-and-forget event processing after the `"ok"` acknowledgment:
classify `event.type` and run the matching handler; a handler error is
caught and logged at this level, so only the calls remain observable. -/
def processEvent (defaultRepo : String) (payload : Json) (w : World) : List Call :=
  if jIsStr (jget payload "type") "event_callback" = false then []
  else if truthy (jget payload "event") = false then []
  else
    let event := (jget payload "event").getD .null
    let (calls, _) :=
      if jIsStr (jget event "type") "reaction_added" then
        handleReactionAdded defaultRepo event w
      else if jIsStr (jget event "type") "message" ∧ jIsStr (jget event "channel_type") "channel" then
        handleChannelThreadMessage defaultRepo event w
      else ([], Except.ok ())
    calls

/-- The route `handler`.  `parsed` is the outcome of `JSON.parse(rawBody)`
(`none` models a parse failure); the HMAC and timestamp-parsing primitives
are passed through to `verifySlackSignature`. -/
def handler (hmacHex : String → String → String) (numParse : String → Option Int)
    (now : Int) (cfg : Config) (w : World)
    (method rawBody : String) (parsed : Option Json)
    (signature timestamp : String) : HttpResponse × List Call :=
  if method ≠ "POST" then
    ({ status := 405, contentType := none, body := "Method Not Allowed" }, [])
  else
    match parsed with
    | none => ({ status := 400, contentType := none, body := "Invalid JSON payload" }, [])
    | some payload =>
      if jIsStr (jget payload "type") "url_verification" then
        ({ status := 200, contentType := some "text/plain",
           body := jsStringOrEmpty (jget payload "challenge") }, [])
      else if cfg.slackBotToken = "" ∨ cfg.slackSigningSecret = "" ∨ cfg.githubToken = "" then
        ({ status := 500, contentType := none, body := "Missing required environment variables" }, [])
      else if verifySlackSignature hmacHex numParse now rawBody signature timestamp
          cfg.slackSigningSecret = false then
        ({ status := 401, contentType := none, body := "Invalid signature" }, [])
      else
        ({ status := 200, contentType := none, body := "ok" },
         processEvent cfg.defaultRepo payload w)

/-- Whether a call is a tracker (GitHub) mutation. -/
def isGithubCall : Call → Bool
  | .github .. => true
  | .slack .. => false

/-- Projection to the tracker (GitHub) calls among the observed calls. -/
def githubCalls (calls : List Call) : List Call :=
  calls.filter isGithubCall

/-! Helper lemmas about the effect layer and strings. -/

theorem append_ne_empty (a b : String) (h : a ≠ "") : a ++ b ≠ "" := by
  intro hc
  have hl := congrArg String.length hc
  rw [String.length_append] at hl
  have h0 : ("" : String).length = 0 := rfl
  rw [h0] at hl
  have ha : a.length ≠ 0 := fun h0a => h (String.ext (List.length_eq_zero.mp h0a))
  omega

theorem andThen_fst (x : Effect α) (f : α → Effect β) :
    (andThen x f).1 = x.1 ++ (match x.2 with | .ok a => (f a).1 | .error _ => []) := by
  unfold andThen
  cases x.2 <;> simp

theorem andThen_ok {α β : Type} {x : Effect α} {a : α} (h : x.2 = .ok a) (f : α → Effect β) :
    andThen x f = (x.1 ++ (f a).1, (f a).2) := by
  unfold andThen
  rw [h]

theorem andThen_error {α β : Type} {x : Effect α} {e : String} (h : x.2 = .error e)
    (f : α → Effect β) : andThen x f = (x.1, .error e) := by
  unfold andThen
  rw [h]

theorem slackApi_fst (m : String) (b : Json) (w : World) :
    (slackApi m b w).1 = [Call.slack m b] := rfl

theorem githubApi_fst (p m : String) (b : Option Json) (w : World) :
    (githubApi p m b w).1 = [Call.github m p b] := rfl

theorem slackApi_eq {w : World} {m : String} {b : Json} {st : Nat} {data : Json}
    (h : w.slack m b = (st, data)) (h2 : is2xx st = true)
    (h3 : truthy (jget data "ok") = true) :
    slackApi m b w = ([Call.slack m b], .ok data) := by
  simp [slackApi, h, h2, h3]

theorem githubApi_200 {w : World} {m p : String} {b : Option Json}
    (h : (w.github m p b).1 = 200) :
    githubApi p m b w = ([Call.github m p b], .ok (w.github m p b).2) := by
  simp [githubApi, h]
  decide

theorem removeGithubLabel_200 {w : World} {qa : QaContext} {name : String}
    (h : (w.github "DELETE" (labelDeletePath qa name) none).1 = 200) :
    removeGithubLabel qa name w =
      ([Call.github "DELETE" (labelDeletePath qa name) none], .ok ()) := by
  unfold removeGithubLabel
  rw [githubApi_200 h]

theorem addGithubLabels_200 {w : World} {qa : QaContext} {labels : List String}
    (h : (w.github "POST" (labelsPath qa)
        (some (Json.obj [("labels", .arr (labels.map Json.str))]))).1 = 200) :
    addGithubLabels qa labels w =
      ([Call.github "POST" (labelsPath qa)
          (some (Json.obj [("labels", .arr (labels.map Json.str))]))], .ok ()) := by
  unfold addGithubLabels
  rw [githubApi_200 h]
  simp [andThen]

theorem createPrComment_fst (qa : QaContext) (b : String) (w : World) :
    (createPrComment qa b w).1 =
      [Call.github "POST" (commentsPath qa) (some (Json.obj [("body", .str b)]))] := by
  unfold createPrComment
  rw [andThen_fst]
  cases (githubApi (commentsPath qa) "POST" (some (Json.obj [("body", .str b)])) w).2 <;>
    simp [githubApi_fst]

theorem postSlackThreadMessage_fst (c t x : String) (w : World) :
    (postSlackThreadMessage c t x w).1 = [Call.slack "chat.postMessage" (postBody c t x)] := by
  unfold postSlackThreadMessage
  rw [andThen_fst]
  cases (slackApi "chat.postMessage" (postBody c t x) w).2 <;> simp [slackApi_fst]

/-- Canonical successful `conversations.replies` response whose first
message carries the given text. -/
def repliesOk (t : String) : Json :=
  Json.obj [("ok", .bool true), ("messages", .arr [Json.obj [("text", .str t)]])]

theorem fetch_ok {w : World} {ch ts t : String}
    (h : w.slack "conversations.replies" (repliesBody ch ts) = (200, repliesOk t)) :
    fetchSlackParentMessage ch ts w =
      ([Call.slack "conversations.replies" (repliesBody ch ts)], .ok (some t)) := by
  unfold fetchSlackParentMessage
  rw [slackApi_eq h (by decide) (by rfl)]
  rfl

theorem resolveSlackUser_ok (uid : String) (w : World) :
    ∃ s, (resolveSlackUser uid w).2 = Except.ok s := by
  by_cases h : uid = ""
  · exact ⟨"unknown", by simp [resolveSlackUser, h]⟩
  · unfold resolveSlackUser
    rw [if_neg h]
    cases hr : (slackApi "users.info" (usersInfoBody uid) w).2 with
    | error e => exact ⟨uid, by simp only [hr]⟩
    | ok response => exact ⟨_, by simp only [hr]; rfl⟩

/-- The display name the handler will use for this user (total projection of
`resolveSlackUser`, which never throws). -/
def actorOf (uid : String) (w : World) : String :=
  match (resolveSlackUser uid w).2 with
  | .ok s => s
  | .error _ => uid

theorem resolveSlackUser_eq_actorOf (uid : String) (w : World) :
    (resolveSlackUser uid w).2 = Except.ok (actorOf uid w) := by
  obtain ⟨s, hs⟩ := resolveSlackUser_ok uid w
  rw [actorOf, hs]

theorem resolveSlackUser_githubCalls (uid : String) (w : World) :
    List.filter isGithubCall (resolveSlackUser uid w).1 = [] := by
  by_cases h : uid = ""
  · simp [resolveSlackUser, h]
  · unfold resolveSlackUser
    rw [if_neg h]
    cases hr : (slackApi "users.info" (usersInfoBody uid) w).2 <;>
      simp [hr, slackApi_fst, isGithubCall]

/-- C1: the signature verifier accepts exactly the requests whose claimed
signature equals `"v0=" ++ hex-HMAC-SHA256(secret, "v0:" ++ timestamp ++ ":" ++ rawBody)`
and whose timestamp header is present and parses (via JavaScript `Number`)
to a finite value within 300 seconds of the current time; every other input
— absent signature or timestamp, non-finite or stale timestamp, length
mismatch, or any mutation of body or signature (which changes the required
digest or the compared bytes) — yields `false`.  The verifier is a total
function, so it never throws. -/
theorem verifySlackSignature_correct
    (hmacHex : String → String → String) (numParse : String → Option Int) (now : Int)
    (rawBody signature timestamp signingSecret : String)
    (_hsecret : signingSecret ≠ "") :
    verifySlackSignature hmacHex numParse now rawBody signature timestamp signingSecret = true ↔
      (timestamp ≠ "" ∧
       (∃ t, numParse timestamp = some t ∧ (now - t).natAbs ≤ 60 * 5) ∧
       signature = "v0=" ++ hmacHex signingSecret ("v0:" ++ timestamp ++ ":" ++ rawBody)) := by
  unfold verifySlackSignature
  constructor
  · intro h
    by_cases h1 : signature = "" ∨ timestamp = ""
    · rw [if_pos h1] at h
      exact absurd h (by simp)
    · rw [if_neg h1] at h
      push_neg at h1
      cases hp : numParse timestamp with
      | none => simp only [hp] at h; exact absurd h (by simp)
      | some t =>
        simp only [hp] at h
        by_cases h2 : 60 * 5 < (now - t).natAbs
        · rw [if_pos h2] at h; exact absurd h (by simp)
        · rw [if_neg h2] at h
          by_cases h3 : (expectedSig hmacHex signingSecret timestamp rawBody).utf8ByteSize
              ≠ signature.utf8ByteSize
          · rw [if_pos h3] at h; exact absurd h (by simp)
          · rw [if_neg h3] at h
            exact ⟨h1.2, ⟨t, rfl, Nat.not_lt.mp h2⟩, (of_decide_eq_true h).symm⟩
  · rintro ⟨hts, ⟨t, hp, hwin⟩, hsig⟩
    have hsg : signature ≠ "" := by
      rw [hsig]; exact append_ne_empty "v0=" _ (by decide)
    rw [if_neg (by simp [hsg, hts])]
    simp only [hp]
    rw [if_neg (Nat.not_lt.mpr hwin)]
    rw [if_neg (by rw [hsig]; exact fun hc => hc rfl)]
    exact decide_eq_true hsig.symm

/-- C1 witness: a concrete accepting input. -/
theorem verifySlackSignature_correct_witness :
    verifySlackSignature (fun _ _ => "d0")
      (fun s => if s = "100" then some (100 : Int) else none) 100
      "body" "v0=d0" "100" "secret" = true :=
  (verifySlackSignature_correct (fun _ _ => "d0")
      (fun s => if s = "100" then some (100 : Int) else none) 100
      "body" "v0=d0" "100" "secret" (by decide)).mpr
    ⟨by decide, ⟨100, by decide, by decide⟩, rfl⟩

/-- C2: a POST whose parsed JSON body has `type == "url_verification"` is
answered 200 with the `challenge` string as the whole body and content-type
`text/plain`, with no downstream call — for every configuration (in
particular with all secrets missing) and every signature/timestamp
headers. -/
theorem urlVerification_handshake
    (hmacHex : String → String → String) (numParse : String → Option Int) (now : Int)
    (cfg : Config) (w : World) (rawBody : String) (payload : Json)
    (signature timestamp challenge : String)
    (htype : jget payload "type" = some (.str "url_verification"))
    (hch : jget payload "challenge" = some (.str challenge)) :
    handler hmacHex numParse now cfg w "POST" rawBody (some payload) signature timestamp =
      ({ status := 200, contentType := some "text/plain", body := challenge }, []) := by
  simp [handler, jIsStr, htype, hch, jsStringOrEmpty, jsToString]

/-- C2 witness: concrete handshake with empty secrets and no signature. -/
theorem urlVerification_handshake_witness :
    handler (fun _ _ => "") (fun _ => none) 0
      { slackBotToken := "", slackSigningSecret := "", githubToken := "", defaultRepo := "" }
      { slack := fun _ _ => (200, Json.obj []), github := fun _ _ _ => (200, Json.obj []) }
      "POST" "raw"
      (some (Json.obj [("type", .str "url_verification"), ("challenge", .str "abc")]))
      "" "" =
      ({ status := 200, contentType := some "text/plain", body := "abc" }, []) :=
  urlVerification_handshake (fun _ _ => "") (fun _ => none) 0
    { slackBotToken := "", slackSigningSecret := "", githubToken := "", defaultRepo := "" }
    { slack := fun _ _ => (200, Json.obj []), github := fun _ _ _ => (200, Json.obj []) }
    "raw" (Json.obj [("type", .str "url_verification"), ("challenge", .str "abc")])
    "" "" "abc" (by rfl) (by rfl)

/-- C4 counterexample input: a QA context whose PR number is 404 puts the
digits `404` into the DELETE path, so the `error.message.includes("404")`
check swallows every tracker error for this PR. -/
def qa404 : QaContext :=
  { app := "app", prNumber := 404, owner := "o", repo := "r" }

/-- World whose tracker answers every request with HTTP 500. -/
def w500 : World where
  slack _ _ := (200, Json.obj [])
  github _ _ _ := (500, Json.obj [])

/-- C4 counterexample: with PR number 404 a tracker response of 500 does
NOT raise — the thrown message embeds the path, which contains `404`, so
the catch block swallows it; the claim requires every non-2xx status other
than 404 to propagate. -/
theorem removeGithubLabel_500_swallowed :
    (removeGithubLabel qa404 "qa:approved" w500).2 = Except.ok () := by rfl

/-- C4 amended: `removeGithubLabel` raises if and only if the tracker
response status is not 2xx AND the composed error message — which embeds
the request path, the status and the serialized response body — does not
contain the substring `"404"`.  (A 404 status always puts `404` into the
message, hence never raises; but a 500 whose path or response body contains
`404` is also swallowed.) -/
theorem removeGithubLabel_error_iff (qa : QaContext) (name : String) (w : World) :
    (∃ e, (removeGithubLabel qa name w).2 = Except.error e) ↔
      (is2xx (w.github "DELETE" (labelDeletePath qa name) none).1 = false ∧
       strIncludes (ghErrMsg (labelDeletePath qa name)
           (w.github "DELETE" (labelDeletePath qa name) none).1
           (w.github "DELETE" (labelDeletePath qa name) none).2) "404" = false) := by
  have hsnd : (githubApi (labelDeletePath qa name) "DELETE" none w).2 =
      (if (w.github "DELETE" (labelDeletePath qa name) none).1 = 204 then .ok (Json.obj [])
       else if is2xx (w.github "DELETE" (labelDeletePath qa name) none).1 then
         .ok (w.github "DELETE" (labelDeletePath qa name) none).2
       else .error (ghErrMsg (labelDeletePath qa name)
         (w.github "DELETE" (labelDeletePath qa name) none).1
         (w.github "DELETE" (labelDeletePath qa name) none).2)) := rfl
  unfold removeGithubLabel
  simp only [hsnd]
  by_cases h204 : (w.github "DELETE" (labelDeletePath qa name) none).1 = 204
  · rw [h204]
    simp [is2xx]
  · simp only [if_neg h204]
    cases h2 : is2xx (w.github "DELETE" (labelDeletePath qa name) none).1 with
    | true => simp [h2]
    | false =>
      cases h404 : strIncludes (ghErrMsg (labelDeletePath qa name)
          (w.github "DELETE" (labelDeletePath qa name) none).1
          (w.github "DELETE" (labelDeletePath qa name) none).2) "404" with
      | true => simp [h404]
      | false => simp [h404]

/-- C10: the actor resolver is total: it always returns `ok` with some
string; the empty user id yields `"unknown"` without any lookup call; and
when the `users.info` lookup fails (non-2xx status or non-`ok` application
response, i.e. a thrown error) it returns the raw user id. -/
theorem resolveSlackUser_total (w : World) (userId : String) :
    (∃ s, (resolveSlackUser userId w).2 = Except.ok s) ∧
    (userId = "" → resolveSlackUser userId w = ([], Except.ok "unknown")) ∧
    (userId ≠ "" →
      (is2xx (w.slack "users.info" (usersInfoBody userId)).1 = false ∨
        truthy (jget (w.slack "users.info" (usersInfoBody userId)).2 "ok") = false) →
      (resolveSlackUser userId w).2 = Except.ok userId) := by
  refine ⟨resolveSlackUser_ok userId w, fun h => by simp [resolveSlackUser, h], ?_⟩
  intro h hfail
  have herr : ∃ e, (slackApi "users.info" (usersInfoBody userId) w).2 = .error e := by
    rcases hfail with hf | hf
    · exact ⟨_, by simp [slackApi, hf]; rfl⟩
    · cases h2 : is2xx (w.slack "users.info" (usersInfoBody userId)).1 with
      | false => exact ⟨_, by simp [slackApi, h2]; rfl⟩
      | true => exact ⟨_, by simp [slackApi, h2, hf]; rfl⟩
  obtain ⟨e, he⟩ := herr
  unfold resolveSlackUser
  rw [if_neg h]
  simp only [he]

/-- World whose Slack API always answers HTTP 500. -/
def wSlackDown : World where
  slack _ _ := (500, Json.obj [])
  github _ _ _ := (500, Json.obj [])

/-- C10 witness: concrete failing lookup falls back to the raw id, and the
empty id resolves to `"unknown"` without a call. -/
theorem resolveSlackUser_total_witness :
    (resolveSlackUser "U1" wSlackDown).2 = Except.ok "U1" ∧
      resolveSlackUser "" wSlackDown = ([], Except.ok "unknown") :=
  ⟨(resolveSlackUser_total wSlackDown "U1").2.2 (by decide) (Or.inl (by rfl)),
   (resolveSlackUser_total wSlackDown "").2.1 rfl⟩

/-! Lemmas about the field extraction of `extractQaContext`. -/

theorem findLabelValue_none {pat : List Char} : ∀ {s : List Char},
    occursCI pat s = false → findLabelValue pat s = none := by
  intro s
  induction s with
  | nil => intro _; rfl
  | cons c cs ih =>
    intro h
    simp only [occursCI, Bool.or_eq_false_iff] at h
    simp [findLabelValue, h.1, ih h.2]

theorem valueOf_none {label text : String}
    (h : occursCI (labelPat label) text.toList = false) :
    valueOf label text = none := by
  unfold valueOf
  rw [findLabelValue_none h]
  rfl

theorem extractQaContext_fields {d text : String} {ctx : QaContext}
    (hx : extractQaContext d text = some ctx) :
    ctx.app = (valueOf "App" text).getD "unknown" ∧
    ctx.commit = valueOf "Commit" text ∧
    ctx.channel = valueOf "Channel" text ∧
    ctx.iosBuildId = valueOf "iOS Build ID" text ∧
    ctx.androidBuildId = valueOf "Android Build ID" text ∧
    ctx.iosUpdateGroupId = valueOf "iOS Update Group ID" text ∧
    ctx.androidUpdateGroupId = valueOf "Android Update Group ID" text ∧
    ctx.runtimeIos = valueOf "Runtime iOS" text ∧
    ctx.runtimeAndroid = valueOf "Runtime Android" text := by
  unfold extractQaContext at hx
  cases hpn : findPrNumber text.toList with
  | none =>
    simp only [hpn] at hx
    exact absurd hx (by simp)
  | some ds =>
    simp only [hpn] at hx
    cases hpu : findPrUrl text.toList with
    | some trip =>
      obtain ⟨full, ow, rp⟩ := trip
      simp only [hpu] at hx
      cases hx
      exact ⟨rfl, rfl, rfl, rfl, rfl, rfl, rfl, rfl, rfl⟩
    | none =>
      simp only [hpu] at hx
      cases hd : strIncludes d "/" with
      | true =>
        rw [hd] at hx
        simp only [if_pos] at hx
        cases hx
        exact ⟨rfl, rfl, rfl, rfl, rfl, rfl, rfl, rfl, rfl⟩
      | false =>
        simp [hd] at hx

/-- The example text of the spec's QA-context extraction property. -/
def exampleText : String :=
  "PR #42 https://github.com/acme/app/pull/42\nApp: mobile\nCommit: abc123"

/-- The context the resolver actually produces on `exampleText`. -/
def exampleCtx : QaContext :=
  { app := "mobile", prNumber := 42, prUrl := some "https://github.com/acme/app/pull/42",
    owner := "acme", repo := "app", commit := some "abc123" }

/-- C7 counterexample: on the spec's example text the resolver does NOT
leave `prUrl` absent — the pull-request URL matched, so `prUrl` is set to
the matched URL, contradicting the claim that every optional field
including `prUrl` is absent. -/
theorem extractQaContext_example_prUrl_present :
    (extractQaContext "" exampleText).map QaContext.prUrl =
      some (some "https://github.com/acme/app/pull/42") := by rfl

/-- C7 amended: for every configured default repository, the resolver maps
the example text to prNumber 42, owner `acme`, repo `app`, app `mobile`,
commit `abc123`, `prUrl` present and equal to the matched URL, and every
other optional field absent. -/
theorem extractQaContext_example (d : String) :
    extractQaContext d exampleText = some exampleCtx := by
  have h1 : findPrNumber exampleText.toList = some ['4', '2'] := by decide
  have h2 : findPrUrl exampleText.toList =
      some ("https://github.com/acme/app/pull/42".toList, "acme".toList, "app".toList) := by decide
  unfold extractQaContext
  simp only [h1, h2]
  decide

/-- Text with a PR marker and URL but none of the labeled fields. -/
def textNoLabels : String := "PR #1 https://github.com/o/r/pull/1"

/-- The context the resolver produces on `textNoLabels`. -/
def ctxNoLabels : QaContext :=
  { app := "unknown", prNumber := 1, prUrl := some "https://github.com/o/r/pull/1",
    owner := "o", repo := "r" }

/-- C8 counterexample: the input has no `App:` line at all, yet the
returned context carries `app = "unknown"` — a default IS substituted for
the `App` field, contradicting the claim that absence of a label yields no
value for every field of the fixed set. -/
theorem extractQaContext_app_default :
    occursCI (labelPat "App") textNoLabels.toList = false ∧
      (extractQaContext "" textNoLabels).map QaContext.app = some "unknown" := by
  exact ⟨by decide, by rfl⟩

/-- C8 amended: for every input text on which the resolver returns a
context, each labeled field of that context is the first match of the
pattern `<label>:\s*(.+)$` (flags `im`, scanned by `findLabelValue`) in the
text, trimmed — so in particular, whenever the text contains no
case-insensitive occurrence of `<label>:`, the eight optional fields
(`Commit`, `Channel`, `iOS Build ID`, `Android Build ID`,
`iOS Update Group ID`, `Android Update Group ID`, `Runtime iOS`,
`Runtime Android`) carry no value; the `App` field is the exception: in its
absence the default value `"unknown"` is substituted. -/
theorem extractQaContext_labeled_fields (d text : String) (ctx : QaContext)
    (hx : extractQaContext d text = some ctx) :
    (ctx.commit = (findLabelValue (labelPat "Commit") text.toList).map
       (fun cs => jsTrim (String.mk cs)) ∧
     ctx.channel = (findLabelValue (labelPat "Channel") text.toList).map
       (fun cs => jsTrim (String.mk cs)) ∧
     ctx.iosBuildId = (findLabelValue (labelPat "iOS Build ID") text.toList).map
       (fun cs => jsTrim (String.mk cs)) ∧
     ctx.androidBuildId = (findLabelValue (labelPat "Android Build ID") text.toList).map
       (fun cs => jsTrim (String.mk cs)) ∧
     ctx.iosUpdateGroupId = (findLabelValue (labelPat "iOS Update Group ID") text.toList).map
       (fun cs => jsTrim (String.mk cs)) ∧
     ctx.androidUpdateGroupId = (findLabelValue (labelPat "Android Update Group ID") text.toList).map
       (fun cs => jsTrim (String.mk cs)) ∧
     ctx.runtimeIos = (findLabelValue (labelPat "Runtime iOS") text.toList).map
       (fun cs => jsTrim (String.mk cs)) ∧
     ctx.runtimeAndroid = (findLabelValue (labelPat "Runtime Android") text.toList).map
       (fun cs => jsTrim (String.mk cs)) ∧
     ctx.app = ((findLabelValue (labelPat "App") text.toList).map
       (fun cs => jsTrim (String.mk cs))).getD "unknown") ∧
    ((occursCI (labelPat "Commit") text.toList = false → ctx.commit = none) ∧
     (occursCI (labelPat "Channel") text.toList = false → ctx.channel = none) ∧
     (occursCI (labelPat "iOS Build ID") text.toList = false → ctx.iosBuildId = none) ∧
     (occursCI (labelPat "Android Build ID") text.toList = false → ctx.androidBuildId = none) ∧
     (occursCI (labelPat "iOS Update Group ID") text.toList = false → ctx.iosUpdateGroupId = none) ∧
     (occursCI (labelPat "Android Update Group ID") text.toList = false → ctx.androidUpdateGroupId = none) ∧
     (occursCI (labelPat "Runtime iOS") text.toList = false → ctx.runtimeIos = none) ∧
     (occursCI (labelPat "Runtime Android") text.toList = false → ctx.runtimeAndroid = none) ∧
     (occursCI (labelPat "App") text.toList = false → ctx.app = "unknown")) := by
  obtain ⟨ha, hc, hch, hib, hab, hiu, hau, hri, hra⟩ := extractQaContext_fields hx
  refine ⟨⟨hc, hch, hib, hab, hiu, hau, hri, hra, ha⟩, ?_⟩
  exact ⟨fun h => by rw [hc, valueOf_none h],
         fun h => by rw [hch, valueOf_none h],
         fun h => by rw [hib, valueOf_none h],
         fun h => by rw [hab, valueOf_none h],
         fun h => by rw [hiu, valueOf_none h],
         fun h => by rw [hau, valueOf_none h],
         fun h => by rw [hri, valueOf_none h],
         fun h => by rw [hra, valueOf_none h],
         fun h => by rw [ha, valueOf_none h]; rfl⟩

/-- Text with a PR marker, URL and a present `Commit:` field. -/
def textWithCommit : String := "PR #2 https://github.com/o/r/pull/2\nCommit: deadbeef"

/-- The context the resolver produces on `textWithCommit`. -/
def ctxWithCommit : QaContext :=
  { app := "unknown", prNumber := 2, prUrl := some "https://github.com/o/r/pull/2",
    owner := "o", repo := "r", commit := some "deadbeef" }

/-- C8 amended witness: a present `Commit:` field is extracted as the first
regex match, trimmed (`"deadbeef"`); on the label-free `textNoLabels` the
commit field is absent and the app field falls back to `"unknown"`. -/
theorem extractQaContext_labeled_fields_witness :
    ctxWithCommit.commit = (findLabelValue (labelPat "Commit") textWithCommit.toList).map
      (fun cs => jsTrim (String.mk cs)) ∧
    (findLabelValue (labelPat "Commit") textWithCommit.toList).map
      (fun cs => jsTrim (String.mk cs)) = some "deadbeef" ∧
    ctxNoLabels.commit = none ∧ ctxNoLabels.app = "unknown" :=
  ⟨(extractQaContext_labeled_fields "" textWithCommit ctxWithCommit (by rfl)).1.1,
   by decide,
   (extractQaContext_labeled_fields "" textNoLabels ctxNoLabels (by rfl)).2.1 (by decide),
   (extractQaContext_labeled_fields "" textNoLabels ctxNoLabels
      (by rfl)).2.2.2.2.2.2.2.2.2 (by decide)⟩

/-- C9 counterexample: the configured default `"/"` is malformed (its owner
and repo parts are both empty), yet the resolver does NOT return none — it
returns a context (with empty owner and repo), contradicting the claim. -/
theorem extractQaContext_malformed_default_not_none :
    extractQaContext "/" "PR #5" ≠ none := by decide

/-- C9 amended: on a text with a `PR #<digits>` marker and no full
pull-request URL, the resolver returns none exactly when the configured
default contains no `/` at all; whenever the default contains a `/` — even
a malformed default such as `"/"` — it returns a context whose owner is
the substring before the first `/` and whose repo is the substring between
the first and second `/` (either may be empty). -/
theorem extractQaContext_default_fallback (d text : String)
    (hpr : (findPrNumber text.toList).isSome = true)
    (hurl : findPrUrl text.toList = none) :
    (extractQaContext d text = none ↔ strIncludes d "/" = false) ∧
    (∀ ctx, extractQaContext d text = some ctx →
       ctx.owner = String.mk (d.toList.takeWhile (fun c => c ≠ '/')) ∧
       ctx.repo = String.mk ((d.toList.drop
         ((d.toList.takeWhile (fun c => c ≠ '/')).length + 1)).takeWhile (fun c => c ≠ '/'))) := by
  obtain ⟨ds, hds⟩ := Option.isSome_iff_exists.mp hpr
  unfold extractQaContext
  simp only [hds, hurl]
  cases hd : strIncludes d "/" with
  | true =>
    rw [if_pos rfl]
    constructor
    · simp [hd]
    · intro ctx hctx
      cases hctx
      exact ⟨rfl, rfl⟩
  | false =>
    rw [if_neg (by simp)]
    simp [hd]

/-- C9 amended witness: with default `"a/b"` and a URL-less PR marker the
resolver does not return none and splits the default into owner and repo. -/
theorem extractQaContext_default_fallback_witness :
    (extractQaContext "a/b" "PR #5" = none ↔ strIncludes "a/b" "/" = false) :=
  (extractQaContext_default_fallback "a/b" "PR #5" (by decide) (by rfl)).1

/-! C6: the synthesized issue body. -/

/-- One line of the amended body format per optional field: present and
nonempty fields yield `label ++ value` on its own line, others nothing. -/
def optLine (lbl : String) (o : Option String) : List String :=
  match o with
  | none => []
  | some v => if v = "" then [] else [lbl ++ v]

/-- Amended issue-body format, following what the code produces: an
attribution line, a PR-number line, the present nonempty optional fields
each on its own line, then a `Descrizione:` line immediately followed by
the bug description — with no blank separator line (the `""` entry of the
source array is falsy and removed by `filter(Boolean)`). -/
def issueBodyAmended (qa : QaContext) (actor bug : String) : String :=
  String.intercalate "\n"
    (["Segnalato da: @" ++ actor, "PR: #" ++ toString qa.prNumber]
      ++ optLine "PR URL: " qa.prUrl ++ optLine "Commit: " qa.commit
      ++ optLine "Channel: " qa.channel ++ optLine "iOS Build ID: " qa.iosBuildId
      ++ optLine "Android Build ID: " qa.androidBuildId
      ++ optLine "iOS Update Group ID: " qa.iosUpdateGroupId
      ++ optLine "Android Update Group ID: " qa.androidUpdateGroupId
      ++ optLine "Runtime iOS: " qa.runtimeIos
      ++ optLine "Runtime Android: " qa.runtimeAndroid
      ++ ["Descrizione:", bug])

theorem jsFilterBoolean_someNe (v : String) (hv : v ≠ "") (rest : List (Option String)) :
    jsFilterBoolean (some v :: rest) = v :: jsFilterBoolean rest := by
  simp [jsFilterBoolean, hv]

theorem jsFilterBoolean_someEmpty (rest : List (Option String)) :
    jsFilterBoolean (some "" :: rest) = jsFilterBoolean rest := by
  simp [jsFilterBoolean]

theorem jsFilterBoolean_optLine (lbl : String) (hl : lbl ≠ "") (o : Option String)
    (rest : List (Option String)) :
    jsFilterBoolean (jsOptLine lbl o :: rest) = optLine lbl o ++ jsFilterBoolean rest := by
  cases o with
  | none => simp [jsOptLine, optLine, jsFilterBoolean]
  | some v =>
    by_cases hv : v = ""
    · simp [jsOptLine, optLine, hv, jsFilterBoolean]
    · simp [jsOptLine, optLine, hv, jsFilterBoolean, append_ne_empty lbl v hl]

/-- A QA context with only the commit field among the optional ones. -/
def qaCommitOnly : QaContext :=
  { app := "m", prNumber := 3, owner := "o", repo := "r", commit := some "abc" }

/-- C6 counterexample: on a context whose only present optional field is
the commit, the body the code builds is NOT `"Commit: abc\n\nboom"` — the
claimed format (fields, blank line, description).  The actual body has
mandatory attribution and PR lines, a `Descrizione:` line, and no blank
line, because `filter(Boolean)` drops the empty-string separator. -/
theorem issueBody_not_spec_format :
    issueBody qaCommitOnly "u" "boom" ≠ "Commit: abc" ++ "\n\n" ++ "boom" := by decide

/-- C6 amended: for every context, actor and nonempty bug description, the
issue body is the attribution line, the PR line, the present nonempty
optional fields (PR URL, commit, channel, build ids, update-group ids,
runtimes) each on its own line with absent ones skipped, then a
`Descrizione:` line followed by the description — all joined by single
newlines with no blank separator line. -/
theorem issueBody_amended_eq (qa : QaContext) (actor bug : String) (hbug : bug ≠ "") :
    issueBody qa actor bug = issueBodyAmended qa actor bug := by
  unfold issueBody issueBodyAmended
  rw [jsFilterBoolean_someNe _ (append_ne_empty "Segnalato da: @" actor (by decide)),
      jsFilterBoolean_someNe _ (append_ne_empty "PR: #" (toString qa.prNumber) (by decide)),
      jsFilterBoolean_optLine "PR URL: " (by decide),
      jsFilterBoolean_optLine "Commit: " (by decide),
      jsFilterBoolean_optLine "Channel: " (by decide),
      jsFilterBoolean_optLine "iOS Build ID: " (by decide),
      jsFilterBoolean_optLine "Android Build ID: " (by decide),
      jsFilterBoolean_optLine "iOS Update Group ID: " (by decide),
      jsFilterBoolean_optLine "Android Update Group ID: " (by decide),
      jsFilterBoolean_optLine "Runtime iOS: " (by decide),
      jsFilterBoolean_optLine "Runtime Android: " (by decide),
      jsFilterBoolean_someEmpty,
      jsFilterBoolean_someNe "Descrizione:" (by decide),
      jsFilterBoolean_someNe bug hbug]
  simp [jsFilterBoolean]

/-- C6 amended witness: concrete instance of the amended format. -/
theorem issueBody_amended_eq_witness :
    issueBody qaCommitOnly "u" "boom" = issueBodyAmended qaCommitOnly "u" "boom" :=
  issueBody_amended_eq qaCommitOnly "u" "boom" (by decide)

/-! C3: the approval reaction flow. -/

theorem andThen_pair_ok {α β : Type} (c : List Call) (a : α) (f : α → Effect β) :
    andThen (c, Except.ok a) f = (c ++ (f a).1, (f a).2) := rfl

theorem andThen_pair_error {α β : Type} (c : List Call) (e : String) (f : α → Effect β) :
    andThen (c, Except.error e) f = (c, Except.error e) := rfl

theorem githubApi_ok {w : World} {m p : String} {b : Option Json} {st : Nat} {data : Json}
    (h : w.github m p b = (st, data)) (h2 : is2xx st = true) (h3 : st ≠ 204) :
    githubApi p m b w = ([Call.github m p b], .ok data) := by
  simp [githubApi, h, h2, h3]

theorem jsToString_str (s : String) : jsToString (.str s) = s := rfl

/-- C3: for every `reaction_added` event with reaction `white_check_mark`
whose referenced parent message resolves to a QA context, under a tracker
accepting the mutations, processing performs exactly these tracker calls in
order: remove-label `qa:needed`, remove-label `qa:changes-requested`, and
one add-labels with exactly `["qa:approved"]` — and no other tracker
mutation. -/
theorem whiteCheckMark_tracker_calls
    (d : String) (w : World) (event : Json) (ifs : List (String × Json))
    (ch ts ptext : String) (qa : QaContext)
    (hreact : jget event "reaction" = some (.str "white_check_mark"))
    (hitem : jget event "item" = some (Json.obj ifs))
    (hch : jget (Json.obj ifs) "channel" = some (.str ch)) (hch0 : ch ≠ "")
    (hts : jget (Json.obj ifs) "ts" = some (.str ts)) (hts0 : ts ≠ "")
    (hfetch : w.slack "conversations.replies" (repliesBody ch ts) = (200, repliesOk ptext))
    (hqa : extractQaContext d ptext = some qa)
    (hgh : ∀ m p b, (w.github m p b).1 = 200) :
    githubCalls (handleReactionAdded d event w).1 =
      [Call.github "DELETE" (labelDeletePath qa "qa:needed") none,
       Call.github "DELETE" (labelDeletePath qa "qa:changes-requested") none,
       Call.github "POST" (labelsPath qa)
         (some (Json.obj [("labels", .arr [.str "qa:approved"])]))] := by
  have hpt : ptext ≠ "" := by
    intro h0
    rw [h0, show extractQaContext d "" = none from rfl] at hqa
    exact Option.noConfusion hqa
  unfold handleReactionAdded
  simp only [hreact, hitem, hch, hts, jsStringOrEmpty, jsObjOrEmpty, jsToString]
  rw [if_neg (by simp [hch0, hts0])]
  rw [fetch_ok hfetch, andThen_pair_ok]
  simp only [if_neg hpt, hqa]
  rw [andThen_ok (resolveSlackUser_eq_actorOf _ w)]
  rw [if_pos (show "white_check_mark" ∈ approveReactions by decide)]
  rw [removeGithubLabel_200 (hgh _ _ _), andThen_pair_ok]
  rw [removeGithubLabel_200 (hgh _ _ _), andThen_pair_ok]
  rw [addGithubLabels_200 (hgh _ _ _), andThen_pair_ok]
  simp [githubCalls, List.filter_append, isGithubCall, resolveSlackUser_githubCalls,
        postSlackThreadMessage_fst]

/-- Parent thread text used by the concrete flow witnesses. -/
def parentTextW : String := "PR #7 https://github.com/o/r/pull/7"

/-- The QA context resolved from `parentTextW`. -/
def qaW : QaContext :=
  { app := "unknown", prNumber := 7, prUrl := some "https://github.com/o/r/pull/7",
    owner := "o", repo := "r" }

/-- World for the C3 witness: Slack succeeds (replies carry `parentTextW`),
the tracker answers 200 everywhere. -/
def wC3 : World where
  slack m _ := if m = "conversations.replies" then (200, repliesOk parentTextW)
               else (200, Json.obj [("ok", .bool true)])
  github _ _ _ := (200, Json.obj [])

/-- The concrete approval-reaction event of the C3 witness. -/
def evC3 : Json :=
  Json.obj [("type", .str "reaction_added"), ("reaction", .str "white_check_mark"),
            ("item", Json.obj [("channel", .str "C1"), ("ts", .str "T1")]),
            ("user", .str "U1")]

/-- C3 witness: the concrete approval flow issues exactly the two removals
and the one add-labels call. -/
theorem whiteCheckMark_tracker_calls_witness :
    githubCalls (handleReactionAdded "" evC3 wC3).1 =
      [Call.github "DELETE" (labelDeletePath qaW "qa:needed") none,
       Call.github "DELETE" (labelDeletePath qaW "qa:changes-requested") none,
       Call.github "POST" (labelsPath qaW)
         (some (Json.obj [("labels", .arr [.str "qa:approved"])]))] :=
  whiteCheckMark_tracker_calls "" wC3 evC3
    [("channel", .str "C1"), ("ts", .str "T1")] "C1" "T1" parentTextW qaW
    (by rfl) (by rfl) (by rfl) (by decide) (by rfl) (by decide)
    (by rfl) (by rfl) (fun _ _ _ => rfl)

/-! C5: the `qa-bug:` thread-message flow. -/

/-- Canonical successful issue-creation response with a positive issue
number and an HTML URL. -/
def issueCreated (k : Int) (u : String) : Json :=
  Json.obj [("number", .num k), ("html_url", .str u)]

theorem createBugIssue_calls {w : World} {qa : QaContext} {actor bug : String}
    {k : Int} {u : String}
    (hissue : w.github "POST" (issuesPath qa) (some (issuePayload qa actor bug))
      = (201, issueCreated k u))
    (hk : 0 < k) :
    (createBugIssue qa actor bug w).1 =
      [Call.github "POST" (issuesPath qa) (some (issuePayload qa actor bug)),
       Call.github "POST" (commentsPath qa)
         (some (Json.obj [("body", .str (bugCommentBody u bug))]))] := by
  have hnum : jsNumberOrZero (jget (issueCreated k u) "number") = some k := rfl
  have hurl : jsStringOrEmpty (jget (issueCreated k u) "html_url") = u := rfl
  unfold createBugIssue
  rw [githubApi_ok hissue (by decide) (by decide), andThen_pair_ok]
  simp only [hnum, hurl]
  rw [if_pos (by simp [hk])]
  rw [andThen_fst]
  cases (createPrComment qa (bugCommentBody u bug) w).2 <;>
    simp [createPrComment_fst]

/-- C5: for every thread message of the form `qa-bug: <nonempty
description>` in a thread whose parent message resolves to a QA context,
when the issue-creation call succeeds (2xx with a positive issue number and
an `html_url`), processing performs exactly one issue-creation call
followed by exactly one PR-comment call whose body embeds the returned
issue URL — and no other tracker mutation. -/
theorem qaBug_issue_then_comment
    (d : String) (w : World) (event : Json)
    (tts ch uid msgText ptext : String) (qa : QaContext) (k : Int) (u : String)
    (hsub : jget event "subtype" = none)
    (htts : jget event "thread_ts" = some (.str tts)) (htts0 : tts ≠ "")
    (hch : jget event "channel" = some (.str ch)) (hch0 : ch ≠ "")
    (htext : jget event "text" = some (.str msgText))
    (huid : jget event "user" = some (.str uid)) (huid0 : uid ≠ "")
    (hpre : startsCI ("qa-bug:".toList) (jsTrim msgText).toList = true)
    (hnofb : startsCI ("qa-feedback:".toList) (jsTrim msgText).toList = false)
    (hbug : jsTrim (strDrop (jsTrim msgText) ("qa-bug:".length)) ≠ "")
    (hfetch : w.slack "conversations.replies" (repliesBody ch tts) = (200, repliesOk ptext))
    (hqa : extractQaContext d ptext = some qa)
    (hissue : w.github "POST" (issuesPath qa)
      (some (issuePayload qa (actorOf uid w) (jsTrim (strDrop (jsTrim msgText) ("qa-bug:".length)))))
      = (201, issueCreated k u))
    (hk : 0 < k) :
    githubCalls (handleChannelThreadMessage d event w).1 =
      [Call.github "POST" (issuesPath qa)
         (some (issuePayload qa (actorOf uid w) (jsTrim (strDrop (jsTrim msgText) ("qa-bug:".length))))),
       Call.github "POST" (commentsPath qa)
         (some (Json.obj [("body",
           .str (bugCommentBody u (jsTrim (strDrop (jsTrim msgText) ("qa-bug:".length)))))]))] := by
  have hpt : ptext ≠ "" := by
    intro h0
    rw [h0, show extractQaContext d "" = none from rfl] at hqa
    exact Option.noConfusion hqa
  have htext0 : jsTrim msgText ≠ "" := by
    intro h0
    rw [h0] at hpre
    exact absurd hpre (by decide)
  unfold handleChannelThreadMessage
  simp only [hsub, htts, hch, htext, huid, jsStringOrEmpty, jsToString]
  rw [if_neg (by simp)]
  rw [if_neg (by simp [htts0, hch0, htext0, huid0])]
  rw [fetch_ok hfetch, andThen_pair_ok]
  simp only [if_neg hpt, hqa]
  rw [andThen_ok (resolveSlackUser_eq_actorOf _ w)]
  have hnofb' : startsCI ['q','a','-','f','e','e','d','b','a','c','k',':']
      (jsTrim msgText).data = false := hnofb
  have hpre' : startsCI ['q','a','-','b','u','g',':'] (jsTrim msgText).data = true := hpre
  rw [if_neg (by simp [hnofb']), if_pos (by simp [hpre'])]
  rw [if_neg hbug]
  rw [andThen_fst]
  have hcbi := createBugIssue_calls hissue hk
  simp [githubCalls, List.filter_append, isGithubCall, resolveSlackUser_githubCalls,
        postSlackThreadMessage_fst, hcbi]
  cases hr : (createBugIssue qa (actorOf uid w)
      (jsTrim (strDrop (jsTrim msgText) ("qa-bug:".length))) w).2 <;>
    simp [postSlackThreadMessage_fst, isGithubCall]

/-- World for the C5 witness: Slack succeeds, the tracker creates issue 12
at the issues path and accepts everything else. -/
def wC5 : World where
  slack m _ := if m = "conversations.replies" then (200, repliesOk parentTextW)
               else (200, Json.obj [("ok", .bool true)])
  github _ p _ := if p = issuesPath qaW then
                    (201, issueCreated 12 "https://github.com/o/r/issues/12")
                  else (201, Json.obj [])

/-- The concrete `qa-bug:` thread message of the C5 witness. -/
def evC5 : Json :=
  Json.obj [("type", .str "message"), ("channel_type", .str "channel"),
            ("thread_ts", .str "T1"), ("channel", .str "C1"),
            ("text", .str "qa-bug: crashes on launch"), ("user", .str "U1")]

/-- C5 witness: the concrete bug report creates exactly one issue and then
one PR comment embedding the returned issue URL. -/
theorem qaBug_issue_then_comment_witness :
    githubCalls (handleChannelThreadMessage "" evC5 wC5).1 =
      [Call.github "POST" (issuesPath qaW)
         (some (issuePayload qaW "U1" "crashes on launch")),
       Call.github "POST" (commentsPath qaW)
         (some (Json.obj [("body",
           .str (bugCommentBody "https://github.com/o/r/issues/12" "crashes on launch"))]))] :=
  qaBug_issue_then_comment "" wC5 evC5 "T1" "C1" "U1" "qa-bug: crashes on launch"
    parentTextW qaW 12 "https://github.com/o/r/issues/12"
    (by rfl) (by rfl) (by decide) (by rfl) (by decide) (by rfl) (by rfl) (by decide)
    (by decide) (by decide) (by decide) (by rfl) (by rfl) (by rfl) (by decide)
